import Mathlib

/-!
Shallow embedding of `src/protocols/http.ts` of the mcp-bravesearch server:
the analytics store (counters, recent-call list, persistence), the
session-transport registry (`getTransport`), the `/analytics/import`
endpoint and the `/mcp` dispatch flow.

Modelling conventions:
- JS `Record<string, number>` objects are association lists (`CountMap`);
  `obj[k] = (obj[k] || 0) + v` updates the existing entry in place or
  appends a new one at the end, exactly as JS object insertion does.
- JS string truthiness (`undefined` and `""` are falsy) is `jsTruthy` /
  `jsOr`; absent headers and fields are `Option.none`.
- `s.substring(0, 50)` is `strTake s 50` (character-level truncation).
- The external schema check `ListToolsRequestSchema.safeParse(...).success`
  is carried on the request as the boolean field `bodyIsListTools`.
-/

namespace BraveHttp

/-- JS string truthiness: `undefined` and `""` are falsy. -/
def jsTruthy (o : Option String) : Bool :=
  match o with
  | none => false
  | some s => s != ""

/-- JS `a || d` on a possibly-absent string `a`: falls through to `d`
when `a` is absent or empty. -/
def jsOr (o : Option String) (d : String) : String :=
  match o with
  | none => d
  | some s => if s = "" then d else s

/-- JS `s.substring(0, n)` (truncation to the first `n` characters). -/
def strTake (s : String) (n : Nat) : String := String.mk (s.data.take n)

/-- JS `s.split(',')[0]?.trim()` — the first comma-separated segment,
trimmed (used on the `x-forwarded-for` header). -/
def firstForwardedIp (s : String) : String := ((s.splitOn ",").headD "").trim

/-- A JS `Record<string, number>` object: association list of key/count
pairs, keys appearing lazily on first occurrence. -/
abbrev CountMap := List (String × Nat)

/-- JS `obj[k] || 0`: the stored count, defaulting to 0. -/
def CountMap.get (m : CountMap) (k : String) : Nat :=
  match m with
  | [] => 0
  | p :: rest => if p.1 = k then p.2 else CountMap.get rest k

/-- JS `obj[k] = (obj[k] || 0) + v`: bump the count at `k` by `v`,
updating in place or appending a fresh key. -/
def CountMap.incr (m : CountMap) (k : String) (v : Nat) : CountMap :=
  match m with
  | [] => [(k, v)]
  | p :: rest => if p.1 = k then (p.1, p.2 + v) :: rest else p :: CountMap.incr rest k v

/-- The merge loop of the import endpoint: for each `(k, v)` of the
delta object's entries, `obj[k] = (obj[k] || 0) + v`. -/
def mergeCounts (m : CountMap) (delta : List (String × Nat)) : CountMap :=
  delta.foldl (fun acc p => CountMap.incr acc p.1 p.2) m

/-- Total delta contributed to key `k` by a list of entries. -/
def CountMap.deltaAt (d : List (String × Nat)) (k : String) : Nat :=
  match d with
  | [] => 0
  | p :: rest => (if p.1 = k then p.2 else 0) + CountMap.deltaAt rest k

/-- One entry of `analytics.recentToolCalls`. -/
structure ToolCallRecord where
  tool : String
  timestamp : String
  clientIp : String
  userAgent : String
deriving DecidableEq

/-- The `Analytics` interface of `http.ts`. -/
structure Analytics where
  serverStartTime : String
  totalRequests : Nat
  totalToolCalls : Nat
  requestsByMethod : CountMap
  requestsByEndpoint : CountMap
  toolCalls : CountMap
  recentToolCalls : List ToolCallRecord
  clientsByIp : CountMap
  clientsByUserAgent : CountMap
  hourlyRequests : CountMap
deriving DecidableEq

/-- `MAX_RECENT_CALLS` constant of `http.ts`. -/
def MAX_RECENT_CALLS : Nat := 100

/-- The parts of an express `Request` the embedded code reads. `none`
models an absent header/field (`undefined`). -/
structure HttpRequest where
  method : String
  xForwardedFor : Option String
  ip : Option String
  remoteAddress : Option String
  userAgent : Option String
  mcpSessionId : Option String
  hasBody : Bool
  bodyMethod : Option String
  bodyParamsName : Option String
  bodyIsListTools : Bool
deriving DecidableEq

/-- The client-IP expression shared by `trackRequest` and `trackToolCall`:
`(req.headers['x-forwarded-for'])?.split(',')[0]?.trim() || req.ip ||
req.socket.remoteAddress || 'unknown'`. -/
def clientIpOf (req : HttpRequest) : String :=
  jsOr (req.xForwardedFor.map firstForwardedIp)
    (jsOr req.ip (jsOr req.remoteAddress "unknown"))

/-- The user-agent expression shared by `trackRequest` and `trackToolCall`:
`(req.headers['user-agent'] || 'unknown').substring(0, 50)`. -/
def userAgentOf (req : HttpRequest) : String :=
  strTake (jsOr req.userAgent "unknown") 50

/-- `trackRequest(req, endpoint)`; `now` is the ISO timestamp whose first
13 characters form the hourly bucket key. -/
def trackRequest (req : HttpRequest) (endpoint : String) (now : String)
    (a : Analytics) : Analytics :=
  { a with
    totalRequests := a.totalRequests + 1
    requestsByMethod := CountMap.incr a.requestsByMethod req.method 1
    requestsByEndpoint := CountMap.incr a.requestsByEndpoint endpoint 1
    clientsByIp := CountMap.incr a.clientsByIp (clientIpOf req) 1
    clientsByUserAgent := CountMap.incr a.clientsByUserAgent (userAgentOf req) 1
    hourlyRequests := CountMap.incr a.hourlyRequests (strTake now 13) 1 }

/-- `trackToolCall(toolName, req)`: bump the tool counters, `unshift` the
new record onto `recentToolCalls` and `pop` the tail once the length
exceeds `MAX_RECENT_CALLS`. -/
def trackToolCall (toolName : String) (req : HttpRequest) (now : String)
    (a : Analytics) : Analytics :=
  let r : ToolCallRecord :=
    { tool := toolName, timestamp := now, clientIp := clientIpOf req,
      userAgent := userAgentOf req }
  let l := r :: a.recentToolCalls
  { a with
    totalToolCalls := a.totalToolCalls + 1
    toolCalls := CountMap.incr a.toolCalls toolName 1
    recentToolCalls := if l.length > MAX_RECENT_CALLS then l.dropLast else l }

/-- The fresh analytics value built at module initialization. -/
def freshAnalytics (now : String) : Analytics :=
  { serverStartTime := now, totalRequests := 0, totalToolCalls := 0,
    requestsByMethod := [], requestsByEndpoint := [], toolCalls := [],
    recentToolCalls := [], clientsByIp := [], clientsByUserAgent := [],
    hourlyRequests := [] }

/-- `saveAnalytics()`: whole-file overwrite of the durable snapshot.
JSON serialization is modelled as the identity on snapshots, so the
durable file holds an `Option Analytics`. -/
def saveAnalytics (a : Analytics) : Option Analytics := some a

/-- `loadAnalytics()`: if a durable snapshot exists, adopt it with
`serverStartTime: loaded.serverStartTime || now`; otherwise keep the
current in-memory analytics. -/
def loadAnalytics (stored : Option Analytics) (current : Analytics)
    (now : String) : Analytics :=
  match stored with
  | some loaded => { loaded with serverStartTime := jsOr (some loaded.serverStartTime) now }
  | none => current

/-- The fixed JSON-RPC error envelope of `yieldGenericServerError`
(`id` is `null`, modelled as `none`). -/
structure ErrorEnvelope where
  id : Option Nat
  jsonrpc : String
  code : Int
  message : String
deriving DecidableEq

/-- `yieldGenericServerError`: the 500-status body written when dispatch
fails before any response bytes were sent. -/
def yieldGenericServerError : ErrorEnvelope :=
  { id := none, jsonrpc := "2.0", code := -32603, message := "Internal server error" }

/-- The session-transport registry plus the fresh-id sources: `transports`
is the `Map<string, StreamableHTTPServerTransport>` (transports named by
numeric ids), `nextTransportId` numbers each `new StreamableHTTPServerTransport`,
and `nextUuid` feeds `randomUUID()`. -/
structure RegistryState where
  transports : List (String × Nat)
  nextTransportId : Nat
  nextUuid : Nat
deriving DecidableEq

/-- The `randomUUID()` value drawn at position `n` of the uuid source. -/
def uuidString (n : Nat) : String := "uuid-" ++ toString n

/-- `transports.has(sessionId)`. -/
def hasSession (st : RegistryState) (sid : String) : Bool :=
  (st.transports.find? (fun p => p.1 == sid)).isSome

/-- `transports.get(sessionId)!` — the first (unique) transport registered
under `sid`. -/
def lookupTid (st : RegistryState) (sid : String) : Nat :=
  ((st.transports.find? (fun p => p.1 == sid)).map Prod.snd).getD 0

/-- Which branch of `getTransport` produced the transport:
`existing` reuses a registered transport; `oneShot` is the session-less
`ListToolsRequest` transport built with `sessionIdGenerator: undefined`;
`newSession` is built with `sessionIdGenerator: () => randomUUID()` and an
`onsessioninitialized` callback that registers the pair. -/
inductive ResolveOutcome
  | existing (tid : Nat)
  | oneShot (tid : Nat)
  | newSession (tid : Nat)
deriving DecidableEq

/-- `getTransport(request)`: branch on the `mcp-session-id` header and the
`ListToolsRequest` shape, exactly as `http.ts` does. The function itself
never inserts into the session map — registration happens later through
the `onsessioninitialized` callback (see `initializeSession`). -/
def getTransport (header : Option String) (bodyIsListTools : Bool)
    (st : RegistryState) : ResolveOutcome × RegistryState :=
  if jsTruthy header && hasSession st (header.getD "") then
    (ResolveOutcome.existing (lookupTid st (header.getD "")), st)
  else if !jsTruthy header && bodyIsListTools then
    (ResolveOutcome.oneShot st.nextTransportId,
      { st with nextTransportId := st.nextTransportId + 1 })
  else
    (ResolveOutcome.newSession st.nextTransportId,
      { st with nextTransportId := st.nextTransportId + 1 })

/-- The `onsessioninitialized` callback firing once the handshake
completes: only a `newSession` transport has one; it draws a fresh
`randomUUID()` and executes `transports.set(sessionId, transport)`. -/
def initializeSession (o : ResolveOutcome) (st : RegistryState) : RegistryState :=
  match o with
  | ResolveOutcome.newSession tid =>
      { st with transports := st.transports ++ [(uuidString st.nextUuid, tid)],
                nextUuid := st.nextUuid + 1 }
  | _ => st

/-- `importData.summary` of the import payload. -/
structure ImportSummary where
  totalRequests : Option Nat
  totalToolCalls : Option Nat
deriving DecidableEq

/-- The import payload: `summary` plus the `breakdown` sections; a `none`
section models an absent `summary` / `breakdown?.byX` object. -/
structure ImportData where
  summary : Option ImportSummary
  byMethod : Option (List (String × Nat))
  byEndpoint : Option (List (String × Nat))
  byTool : Option (List (String × Nat))
deriving DecidableEq

/-- What the `/analytics/import` handler produced: HTTP status, the error
message if any, the analytics state afterwards, and whether
`saveAnalytics()` ran. -/
structure ImportOutcome where
  status : Nat
  errorMsg : Option String
  analytics : Analytics
  persisted : Bool
deriving DecidableEq

/-- The `/analytics/import` handler: reject with 403 when an import key is
configured (truthy) and the supplied `key` query parameter differs;
otherwise merge each present section into the counters and persist. -/
def analyticsImport (configuredKey suppliedKey : Option String)
    (body : ImportData) (a : Analytics) : ImportOutcome :=
  if jsTruthy configuredKey && !(suppliedKey == configuredKey) then
    { status := 403, errorMsg := some "Invalid import key", analytics := a,
      persisted := false }
  else
    let a1 := match body.summary with
      | some s =>
          { a with totalRequests := a.totalRequests + s.totalRequests.getD 0
                   totalToolCalls := a.totalToolCalls + s.totalToolCalls.getD 0 }
      | none => a
    let a2 := match body.byMethod with
      | some d => { a1 with requestsByMethod := mergeCounts a1.requestsByMethod d }
      | none => a1
    let a3 := match body.byEndpoint with
      | some d => { a2 with requestsByEndpoint := mergeCounts a2.requestsByEndpoint d }
      | none => a2
    let a4 := match body.byTool with
      | some d => { a3 with toolCalls := mergeCounts a3.toolCalls d }
      | none => a3
    { status := 200, errorMsg := none, analytics := a4, persisted := true }

/-- Observable steps of the `/mcp` handler, in execution order. -/
inductive Event
  | requestTracked
  | toolCallTracked (tool : String)
  | transportResolved
  | requestHandled
  | genericErrorSent
deriving DecidableEq

/-- Where (if anywhere) the awaited dispatch steps throw; `headersSent`
is the value of `res.headersSent` observed in the `catch` block. -/
inductive Failure
  | resolveThrows (headersSent : Bool)
  | handleThrows (headersSent : Bool)
  | success
deriving DecidableEq

/-- Result of one `/mcp` dispatch: final analytics and registry states,
the error envelope written by the catch block (if any), and the ordered
event trace. -/
structure DispatchOutcome where
  finalAnalytics : Analytics
  registry : RegistryState
  errorResponse : Option ErrorEnvelope
  events : List Event
deriving DecidableEq

/-- `req.body && req.body.method === 'tools/call' && req.body.params?.name`. -/
def isToolCallShaped (req : HttpRequest) : Bool :=
  req.hasBody && req.bodyMethod == some "tools/call" && jsTruthy req.bodyParamsName

/-- The `/mcp` handler of `createApp`: track the request, track the tool
call when the body has the tool-call shape, then resolve a transport and
delegate to it; on a throw, write the generic error envelope only when
`res.headersSent` is still false. On success the transport's handshake
may fire `onsessioninitialized` (modelled by `initializeSession`). -/
def mcpHandler (req : HttpRequest) (now : String) (a : Analytics)
    (st : RegistryState) (f : Failure) : DispatchOutcome :=
  let a1 := trackRequest req "/mcp" now a
  let a2 := if isToolCallShaped req then
      trackToolCall (req.bodyParamsName.getD "") req now a1
    else a1
  let ev0 := Event.requestTracked ::
    (if isToolCallShaped req then [Event.toolCallTracked (req.bodyParamsName.getD "")] else [])
  match f with
  | Failure.resolveThrows hs =>
      { finalAnalytics := a2, registry := st,
        errorResponse := if hs then none else some yieldGenericServerError,
        events := ev0 ++ (if hs then [] else [Event.genericErrorSent]) }
  | Failure.handleThrows hs =>
      let r := getTransport req.mcpSessionId req.bodyIsListTools st
      { finalAnalytics := a2, registry := r.2,
        errorResponse := if hs then none else some yieldGenericServerError,
        events := ev0 ++ [Event.transportResolved] ++
          (if hs then [] else [Event.genericErrorSent]) }
  | Failure.success =>
      let r := getTransport req.mcpSessionId req.bodyIsListTools st
      { finalAnalytics := a2, registry := initializeSession r.1 r.2,
        errorResponse := none,
        events := ev0 ++ [Event.transportResolved, Event.requestHandled] }

/-! ## Shared lemmas -/

theorem strTake_length_le (s : String) (n : Nat) : (strTake s n).length ≤ n := by
  have h1 : (strTake s n).length = (s.data.take n).length := rfl
  rw [h1]
  exact List.length_take_le n s.data

theorem strTake_ne_empty (s : String) (n : Nat) (hn : 0 < n) (h : s ≠ "") :
    strTake s n ≠ "" := by
  intro hc
  apply h
  have hd : s.data.take n = ([] : List Char) := congrArg String.data hc
  cases hs : s.data with
  | nil => exact String.ext hs
  | cons a l =>
    rw [hs] at hd
    cases n with
    | zero => exact absurd hn (by simp)
    | succ m => simp [List.take] at hd

theorem jsOr_ne_empty (o : Option String) (d : String) (hd : d ≠ "") :
    jsOr o d ≠ "" := by
  cases o with
  | none => exact hd
  | some s =>
    by_cases hs : s = ""
    · simp [jsOr, hs]
      exact hd
    · simp [jsOr, hs]

theorem CountMap.get_incr_self (m : CountMap) (k : String) (v : Nat) :
    (CountMap.incr m k v).get k = m.get k + v := by
  induction m with
  | nil => simp [CountMap.incr, CountMap.get]
  | cons p rest ih =>
    by_cases h : p.1 = k
    · simp [CountMap.incr, CountMap.get, h]
    · simp [CountMap.incr, CountMap.get, h, ih]

theorem CountMap.get_incr_ne (m : CountMap) (k k' : String) (v : Nat)
    (h : k' ≠ k) : (CountMap.incr m k v).get k' = m.get k' := by
  induction m with
  | nil =>
    simp only [CountMap.incr, CountMap.get]
    exact if_neg (fun hc => h hc.symm)
  | cons p rest ih =>
    by_cases hp : p.1 = k
    · have hp' : ¬ p.1 = k' := by rw [hp]; exact fun hc => h hc.symm
      simp only [CountMap.incr, if_pos hp, CountMap.get]
      rw [if_neg hp', if_neg hp']
    · simp only [CountMap.incr, if_neg hp, CountMap.get]
      by_cases hp' : p.1 = k'
      · rw [if_pos hp', if_pos hp']
      · rw [if_neg hp', if_neg hp', ih]

theorem mergeCounts_get (d : List (String × Nat)) (m : CountMap) (k : String) :
    (mergeCounts m d).get k = m.get k + CountMap.deltaAt d k := by
  induction d generalizing m with
  | nil => simp [mergeCounts, CountMap.deltaAt]
  | cons p rest ih =>
    have hstep : mergeCounts m (p :: rest) = mergeCounts (CountMap.incr m p.1 p.2) rest := rfl
    rw [hstep, ih]
    by_cases h : p.1 = k
    · rw [h, CountMap.get_incr_self]
      simp [CountMap.deltaAt, h]
      omega
    · rw [CountMap.get_incr_ne m p.1 k p.2 (fun hc => h hc.symm)]
      simp [CountMap.deltaAt, h]

theorem trackToolCall_recent_eq (t : String) (req : HttpRequest) (now : String)
    (a : Analytics) :
    (trackToolCall t req now a).recentToolCalls =
      if a.recentToolCalls.length + 1 > MAX_RECENT_CALLS then
        (({ tool := t, timestamp := now, clientIp := clientIpOf req,
            userAgent := userAgentOf req } : ToolCallRecord) :: a.recentToolCalls).dropLast
      else
        ({ tool := t, timestamp := now, clientIp := clientIpOf req,
           userAgent := userAgentOf req } : ToolCallRecord) :: a.recentToolCalls := by
  simp [trackToolCall]

theorem trackToolCall_recent_head (t : String) (req : HttpRequest) (now : String)
    (a : Analytics) :
    (trackToolCall t req now a).recentToolCalls.head? =
      some { tool := t, timestamp := now, clientIp := clientIpOf req,
             userAgent := userAgentOf req } := by
  rw [trackToolCall_recent_eq]
  by_cases h : a.recentToolCalls.length + 1 > MAX_RECENT_CALLS
  · have hne : a.recentToolCalls ≠ [] := by
      intro hnil
      rw [hnil] at h
      simp [MAX_RECENT_CALLS] at h
    rw [if_pos h, List.dropLast_cons_of_ne_nil hne]
    rfl
  · rw [if_neg h]
    rfl

/-! ## Claim theorems -/

/-- C1: from any state whose `recentToolCalls` has at most 100 entries,
`trackToolCall` prepends the new `{tool, timestamp, clientIp, userAgent}`
record at the head and leaves at most 100 entries; below the bound the
list just grows at the head, and exactly at the bound the oldest (tail)
record is evicted while the newest 100 remain newest-first. -/
theorem trackToolCall_recent_bounded (t : String) (req : HttpRequest)
    (now : String) (a : Analytics)
    (h : a.recentToolCalls.length ≤ MAX_RECENT_CALLS) :
    (trackToolCall t req now a).recentToolCalls.length ≤ MAX_RECENT_CALLS
    ∧ (trackToolCall t req now a).recentToolCalls.head? =
        some { tool := t, timestamp := now, clientIp := clientIpOf req,
               userAgent := userAgentOf req }
    ∧ (a.recentToolCalls.length < MAX_RECENT_CALLS →
        (trackToolCall t req now a).recentToolCalls =
          ({ tool := t, timestamp := now, clientIp := clientIpOf req,
             userAgent := userAgentOf req } : ToolCallRecord) :: a.recentToolCalls)
    ∧ (a.recentToolCalls.length = MAX_RECENT_CALLS →
        (trackToolCall t req now a).recentToolCalls =
          ({ tool := t, timestamp := now, clientIp := clientIpOf req,
             userAgent := userAgentOf req } : ToolCallRecord) ::
            a.recentToolCalls.dropLast) := by
  refine ⟨?_, trackToolCall_recent_head t req now a, ?_, ?_⟩
  · rw [trackToolCall_recent_eq]
    by_cases hb : a.recentToolCalls.length + 1 > MAX_RECENT_CALLS
    · rw [if_pos hb]
      rw [List.length_dropLast, List.length_cons]
      omega
    · rw [if_neg hb, List.length_cons]
      omega
  · intro hlt
    rw [trackToolCall_recent_eq, if_neg (by omega)]
  · intro heq
    have hne : a.recentToolCalls ≠ [] := by
      intro hnil
      rw [hnil] at heq
      simp [MAX_RECENT_CALLS] at heq
    rw [trackToolCall_recent_eq, if_pos (by omega),
      List.dropLast_cons_of_ne_nil hne]

/-! witness inputs -/

def wReq : HttpRequest :=
  { method := "POST", xForwardedFor := none, ip := some "10.0.0.1",
    remoteAddress := none, userAgent := some "curl/8.0", mcpSessionId := none,
    hasBody := true, bodyMethod := some "tools/call",
    bodyParamsName := some "brave_web_search", bodyIsListTools := false }

def wNow : String := "2025-10-11T01:00:00.000Z"

def wRecord : ToolCallRecord :=
  { tool := "brave_web_search", timestamp := "2025-10-01T00:00:00.000Z",
    clientIp := "10.0.0.1", userAgent := "curl/8.0" }

def wAnalytics : Analytics :=
  { freshAnalytics "2025-10-01T00:00:00.000Z" with
    recentToolCalls := List.replicate 100 wRecord }

/-- C1 witness: on a concrete full (100-entry) state, the 101st call
prepends the new record and drops the tail record. -/
theorem trackToolCall_recent_bounded_witness :
    (trackToolCall "brave_web_search" wReq wNow wAnalytics).recentToolCalls =
      ({ tool := "brave_web_search", timestamp := wNow,
         clientIp := clientIpOf wReq, userAgent := userAgentOf wReq } :
        ToolCallRecord) :: wAnalytics.recentToolCalls.dropLast :=
  (trackToolCall_recent_bounded "brave_web_search" wReq wNow wAnalytics
    (by simp [wAnalytics, MAX_RECENT_CALLS])).2.2.2
    (by simp [wAnalytics, MAX_RECENT_CALLS])

def wRegistry : RegistryState := { transports := [], nextTransportId := 0, nextUuid := 0 }

def wRegistry1 : RegistryState :=
  { transports := [("uuid-0", 7)], nextTransportId := 8, nextUuid := 1 }

/-- C2: when handler resolution or handler invocation throws, the `/mcp`
dispatcher responds with the fixed envelope
`{id: null, jsonrpc: '2.0', error: {code: -32603, message: 'Internal
server error'}}` exactly when no response bytes have been sent yet; if a
partial response was already sent, no second response is written. -/
theorem mcp_generic_error_iff (req : HttpRequest) (now : String) (a : Analytics)
    (st : RegistryState) (hs : Bool) (f : Failure)
    (hf : f = Failure.resolveThrows hs ∨ f = Failure.handleThrows hs) :
    (mcpHandler req now a st f).errorResponse =
      (if hs then none else
        some { id := none, jsonrpc := "2.0", code := -32603,
               message := "Internal server error" }) := by
  rcases hf with h | h <;> subst h <;>
    cases hs <;> simp [mcpHandler, yieldGenericServerError]

/-- C2 witness: a concrete throwing resolution with nothing sent yet gets
the generic envelope. -/
theorem mcp_generic_error_iff_witness :
    (mcpHandler wReq wNow (freshAnalytics wNow) wRegistry
      (Failure.resolveThrows false)).errorResponse =
      some { id := none, jsonrpc := "2.0", code := -32603,
             message := "Internal server error" } := by
  have h := mcp_generic_error_iff wReq wNow (freshAnalytics wNow) wRegistry false
    (Failure.resolveThrows false) (Or.inl rfl)
  simpa using h

/-- C3: for a registered sessionId, `getTransport` returns exactly the
registered transport, creates nothing new, leaves the registry unchanged,
and is idempotent: resolving again yields the same transport and state. -/
theorem getTransport_known_session (sid : String) (tid : Nat) (b : Bool)
    (st : RegistryState) (hsid : sid ≠ "")
    (hreg : st.transports.find? (fun p => p.1 == sid) = some (sid, tid)) :
    getTransport (some sid) b st = (ResolveOutcome.existing tid, st)
    ∧ getTransport (some sid) b ((getTransport (some sid) b st).2) =
        (ResolveOutcome.existing tid, st) := by
  have h1 : getTransport (some sid) b st = (ResolveOutcome.existing tid, st) := by
    simp [getTransport, jsTruthy, hasSession, lookupTid, hreg, hsid]
  refine ⟨h1, ?_⟩
  rw [h1]
  exact h1

/-- C3 witness: concrete resolution of a registered session. -/
theorem getTransport_known_session_witness :
    getTransport (some "uuid-0") false wRegistry1 =
      (ResolveOutcome.existing 7, wRegistry1) :=
  (getTransport_known_session "uuid-0" 7 false wRegistry1 (by decide) (by decide)).1

/-- C4: a request with no session header whose body validates as a
ListToolsRequest gets a fresh one-shot transport with no sessionId
generator; the session map is unchanged and nothing is registered, even
once the initialization-callback stage runs. -/
theorem getTransport_listTools_oneShot (st : RegistryState) :
    getTransport none true st =
      (ResolveOutcome.oneShot st.nextTransportId,
        { st with nextTransportId := st.nextTransportId + 1 })
    ∧ (getTransport none true st).2.transports = st.transports
    ∧ initializeSession (getTransport none true st).1 ((getTransport none true st).2) =
        (getTransport none true st).2 :=
  ⟨rfl, rfl, rfl⟩

/-- C5 counterexample: the claim fails for a present-but-empty session
header. JS string truthiness treats `''` like an absent header, so a
discovery-shaped request carrying an empty `mcp-session-id` (which is not
a key of the map) takes the no-session discovery fast path (one-shot
transport), not the new-session branch. -/
theorem getTransport_empty_header_counterexample :
    (some "" : Option String) ≠ none
    ∧ hasSession { transports := [], nextTransportId := 0, nextUuid := 0 } "" = false
    ∧ (getTransport (some "") true
        { transports := [], nextTransportId := 0, nextUuid := 0 }).1 =
        ResolveOutcome.oneShot 0 :=
  ⟨by simp, rfl, rfl⟩

/-- C5 amended: for every request whose session header is present and
non-empty but not a key of the session map, `getTransport` reports no
error: it takes the new-session branch — never the discovery fast path,
even for a discovery-shaped body — creating a fresh transport; its
handshake then registers a freshly generated sessionId, and the
client-supplied header value is ignored (the resulting state does not
depend on it). -/
theorem getTransport_unknown_header_new_session (sid : String) (b : Bool)
    (st : RegistryState) (hsid : sid ≠ "")
    (hmiss : hasSession st sid = false) :
    getTransport (some sid) b st =
      (ResolveOutcome.newSession st.nextTransportId,
        { st with nextTransportId := st.nextTransportId + 1 })
    ∧ (getTransport (some sid) b st).2.transports = st.transports
    ∧ initializeSession (getTransport (some sid) b st).1
        ((getTransport (some sid) b st).2) =
        { st with nextTransportId := st.nextTransportId + 1,
                  transports := st.transports ++
                    [(uuidString st.nextUuid, st.nextTransportId)],
                  nextUuid := st.nextUuid + 1 } := by
  have h1 : getTransport (some sid) b st =
      (ResolveOutcome.newSession st.nextTransportId,
        { st with nextTransportId := st.nextTransportId + 1 }) := by
    simp [getTransport, jsTruthy, hmiss, hsid]
  refine ⟨h1, by rw [h1], ?_⟩
  rw [h1]
  rfl

/-- C5 amended witness: a concrete unknown non-empty header starts a new
session whose handshake registers a fresh uuid. -/
theorem getTransport_unknown_header_new_session_witness :
    getTransport (some "sess-x") true wRegistry =
      (ResolveOutcome.newSession 0, { wRegistry with nextTransportId := 1 }) :=
  (getTransport_unknown_header_new_session "sess-x" true wRegistry
    (by decide) (by decide)).1

/-- C6: with an import secret configured (set and non-empty) and a
missing or mismatched `key` query parameter, the import endpoint answers
403 with an explanatory message, leaves every counter and the
recent-calls list untouched, and does not persist. -/
theorem analyticsImport_rejects_bad_key (secret : String) (sk : Option String)
    (body : ImportData) (a : Analytics) (hne : secret ≠ "")
    (hkey : sk ≠ some secret) :
    analyticsImport (some secret) sk body a =
      { status := 403, errorMsg := some "Invalid import key", analytics := a,
        persisted := false } := by
  have hguard : (jsTruthy (some secret) && !(sk == some secret)) = true := by
    simp [jsTruthy, hne, hkey]
  simp [analyticsImport, hguard]

/-- C6 witness: a concrete rejection with an absent key. -/
theorem analyticsImport_rejects_bad_key_witness :
    analyticsImport (some "s3cret") none
      { summary := none, byMethod := none, byEndpoint := none, byTool := none }
      (freshAnalytics wNow) =
      { status := 403, errorMsg := some "Invalid import key",
        analytics := freshAnalytics wNow, persisted := false } :=
  analyticsImport_rejects_bad_key "s3cret" none _ _ (by decide) (by simp)

/-- C7: an accepted import payload is merged additively: the summary
deltas add to `totalRequests`/`totalToolCalls`, each breakdown section
adds per key (missing sections are skipped), and the `recentToolCalls`
history is never replaced or modified. -/
theorem analyticsImport_merges_additively (ck sk : Option String)
    (body : ImportData) (a : Analytics)
    (hacc : (jsTruthy ck && !(sk == ck)) = false) :
    (analyticsImport ck sk body a).status = 200
    ∧ (analyticsImport ck sk body a).analytics.recentToolCalls = a.recentToolCalls
    ∧ (analyticsImport ck sk body a).analytics.totalRequests =
        a.totalRequests + ((body.summary.map (fun s => s.totalRequests.getD 0)).getD 0)
    ∧ (analyticsImport ck sk body a).analytics.totalToolCalls =
        a.totalToolCalls + ((body.summary.map (fun s => s.totalToolCalls.getD 0)).getD 0)
    ∧ (∀ k, (analyticsImport ck sk body a).analytics.requestsByMethod.get k =
        a.requestsByMethod.get k + CountMap.deltaAt (body.byMethod.getD []) k)
    ∧ (∀ k, (analyticsImport ck sk body a).analytics.requestsByEndpoint.get k =
        a.requestsByEndpoint.get k + CountMap.deltaAt (body.byEndpoint.getD []) k)
    ∧ (∀ k, (analyticsImport ck sk body a).analytics.toolCalls.get k =
        a.toolCalls.get k + CountMap.deltaAt (body.byTool.getD []) k) := by
  obtain ⟨s1, s2, s3, s4⟩ := body
  cases s1 <;> cases s2 <;> cases s3 <;> cases s4 <;>
    simp [analyticsImport, hacc, mergeCounts_get, CountMap.deltaAt]

def wImport : ImportData :=
  { summary := none, byMethod := none, byEndpoint := none,
    byTool := some [("search", 5)] }

def wAnalytics7 : Analytics :=
  { freshAnalytics "2025-10-01T00:00:00.000Z" with toolCalls := [("search", 3)] }

/-- C7 witness: importing `byTool {"search": 5}` over a current count of
3 yields 8, with the recent-calls history untouched. -/
theorem analyticsImport_merges_additively_witness :
    (analyticsImport none none wImport wAnalytics7).analytics.toolCalls.get "search" = 8
    ∧ (analyticsImport none none wImport wAnalytics7).analytics.recentToolCalls =
        wAnalytics7.recentToolCalls := by
  have h := analyticsImport_merges_additively none none wImport wAnalytics7 (by rfl)
  refine ⟨?_, h.2.1⟩
  have h2 := h.2.2.2.2.2.2 "search"
  rw [h2]
  decide

/-- C8: persisting a snapshot and reloading it yields the persisted
snapshot unchanged; in particular `serverStartTime` is preserved from the
stored snapshot, not reset to the reload time. -/
theorem save_load_roundtrip (a current : Analytics) (now : String)
    (h : a.serverStartTime ≠ "") :
    loadAnalytics (saveAnalytics a) current now = a
    ∧ (loadAnalytics (saveAnalytics a) current now).serverStartTime =
        a.serverStartTime := by
  have h1 : loadAnalytics (saveAnalytics a) current now = a := by
    simp [loadAnalytics, saveAnalytics, jsOr, h]
  exact ⟨h1, by rw [h1]⟩

/-- C8 witness: a concrete snapshot survives the round trip with its
start time intact. -/
theorem save_load_roundtrip_witness :
    loadAnalytics (saveAnalytics (freshAnalytics wNow))
      (freshAnalytics "2099-01-01T00:00:00.000Z") "2099-01-01T00:00:00.000Z" =
      freshAnalytics wNow :=
  (save_load_roundtrip (freshAnalytics wNow) _ _
    (by simp [freshAnalytics, wNow])).1

/-- C9: every `/mcp` dispatch records the request first, before any other
step; a tool-invocation body additionally records the tool-call event
before the transport is resolved or invoked; both counters are bumped
even when resolution or handling subsequently fails. -/
theorem mcp_tracks_before_dispatch (req : HttpRequest) (now : String)
    (a : Analytics) (st : RegistryState) (f : Failure) :
    (mcpHandler req now a st f).events.head? = some Event.requestTracked
    ∧ (mcpHandler req now a st f).finalAnalytics.totalRequests = a.totalRequests + 1
    ∧ (isToolCallShaped req = true →
        ((mcpHandler req now a st f).events[1]? =
            some (Event.toolCallTracked (req.bodyParamsName.getD ""))
          ∧ (mcpHandler req now a st f).finalAnalytics.totalToolCalls =
              a.totalToolCalls + 1
          ∧ Event.transportResolved ∉ (mcpHandler req now a st f).events.take 2
          ∧ Event.requestHandled ∉ (mcpHandler req now a st f).events.take 2)) := by
  cases f <;> by_cases h : isToolCallShaped req <;>
    simp [mcpHandler, trackRequest, trackToolCall, h]

/-- C9 witness: a concrete tool-call dispatch that later throws still has
the request tracked first, the tool event second, and both counters
bumped. -/
theorem mcp_tracks_before_dispatch_witness :
    (mcpHandler wReq wNow (freshAnalytics wNow) wRegistry
      (Failure.handleThrows true)).events.head? = some Event.requestTracked
    ∧ (mcpHandler wReq wNow (freshAnalytics wNow) wRegistry
        (Failure.handleThrows true)).events[1]? =
        some (Event.toolCallTracked "brave_web_search")
    ∧ (mcpHandler wReq wNow (freshAnalytics wNow) wRegistry
        (Failure.handleThrows true)).finalAnalytics.totalToolCalls =
        (freshAnalytics wNow).totalToolCalls + 1 := by
  have h := mcp_tracks_before_dispatch wReq wNow (freshAnalytics wNow) wRegistry
    (Failure.handleThrows true)
  have h3 := h.2.2 (by decide)
  exact ⟨h.1, h3.1, h3.2.1⟩

/-- C10: the user-agent stored by the tracking functions — as a
`clientsByUserAgent` key and inside the `recentToolCalls` record — is
truncated to at most 50 characters; a request with no user-agent header
is recorded under 'unknown', as is one with no resolvable client address;
neither key is ever empty. -/
theorem tracking_keys_truncated_nonempty (req : HttpRequest)
    (endpoint now t : String) (a : Analytics) :
    (userAgentOf req).length ≤ 50
    ∧ userAgentOf req ≠ ""
    ∧ clientIpOf req ≠ ""
    ∧ (req.userAgent = none → userAgentOf req = "unknown")
    ∧ (req.xForwardedFor = none → req.ip = none → req.remoteAddress = none →
        clientIpOf req = "unknown")
    ∧ (trackRequest req endpoint now a).clientsByUserAgent.get (userAgentOf req) =
        a.clientsByUserAgent.get (userAgentOf req) + 1
    ∧ (trackRequest req endpoint now a).clientsByIp.get (clientIpOf req) =
        a.clientsByIp.get (clientIpOf req) + 1
    ∧ (trackToolCall t req now a).recentToolCalls.head? =
        some { tool := t, timestamp := now, clientIp := clientIpOf req,
               userAgent := userAgentOf req } := by
  refine ⟨strTake_length_le _ _, ?_, ?_, ?_, ?_, ?_, ?_,
    trackToolCall_recent_head t req now a⟩
  · exact strTake_ne_empty _ _ (by decide) (jsOr_ne_empty _ _ (by decide))
  · exact jsOr_ne_empty _ _ (jsOr_ne_empty _ _ (jsOr_ne_empty _ _ (by decide)))
  · intro h
    simp only [userAgentOf, h, jsOr]
    decide
  · intro h1 h2 h3
    simp [clientIpOf, h1, h2, h3, jsOr]
  · simp [trackRequest, CountMap.get_incr_self]
  · simp [trackRequest, CountMap.get_incr_self]

def wReqUnknown : HttpRequest :=
  { method := "GET", xForwardedFor := none, ip := none, remoteAddress := none,
    userAgent := none, mcpSessionId := none, hasBody := false,
    bodyMethod := none, bodyParamsName := none, bodyIsListTools := false }

/-- C10 witness: a request with no user-agent header and no resolvable
address is keyed under 'unknown' on both dimensions. -/
theorem tracking_keys_truncated_nonempty_witness :
    userAgentOf wReqUnknown = "unknown" ∧ clientIpOf wReqUnknown = "unknown" := by
  have h := tracking_keys_truncated_nonempty wReqUnknown "/mcp" wNow "t"
    (freshAnalytics wNow)
  exact ⟨h.2.2.2.1 rfl, h.2.2.2.2.1 rfl rfl rfl⟩

end BraveHttp
